import Mathlib

/-
Verification of the email-fastapi repository's request-handling and
template-composition pipeline.  The definitions below are shallow
embeddings of the Python source files (main.py, FastAPI.py, routes.py,
crud.py, app.py, model.py, schema.py): Python strings are modelled as
Lean strings (with list-of-character workhorses), Python dicts as
association lists, json.loads as an executable recursive-descent parser,
and the endpoint handlers as pure functions over explicit capability
parameters (the OpenAI client and the FastMail client, each modelled as
an optional outcome/callback so that "unconfigured" and "call failed"
are both expressible).
-/

namespace EmailAssistant

/-! ## Python string primitives -/

/-- Python `str.strip()` whitespace test (ASCII whitespace; the rare
unicode whitespace characters Python also strips are not modelled). -/
def isPyWs (c : Char) : Bool :=
  c = ' ' || c = '\t' || c = '\n' || c = '\r' || c = '\x0b' || c = '\x0c'

/-- Python `s.strip()` on a character list. -/
def pyStripL (s : List Char) : List Char :=
  ((s.dropWhile isPyWs).reverse.dropWhile isPyWs).reverse

/-- Python `s.strip()`. -/
def pyStrip (s : String) : String := String.mk (pyStripL s.data)

/-- Finds the first occurrence of `sep` in `s`; returns the part before
the occurrence and the part after it.  `none` when `sep` does not occur
(for nonempty `sep`; the empty separator is never used by the source). -/
def findSplit (sep : List Char) : List Char → Option (List Char × List Char)
  | [] => if sep.isPrefixOf ([] : List Char) then some ([], []) else none
  | c :: cs =>
    if sep.isPrefixOf (c :: cs) then some ([], List.drop sep.length (c :: cs))
    else (findSplit sep cs).map (fun p => (c :: p.1, p.2))

/-- Python `sep in s` (substring containment, as used by
`"```json" in ai_response`). -/
def pyContainsL (sep s : List Char) : Bool := (findSplit sep s).isSome

/-- Worker for Python `s.split(sep)`: each found occurrence of a
nonempty `sep` strictly shortens the remaining input, so the fuel of the
wrapper below is never exhausted. -/
def pySplitAux (sep : List Char) : Nat → List Char → List (List Char)
  | 0, s => [s]
  | fuel+1, s =>
    match findSplit sep s with
    | none => [s]
    | some (pre, post) => pre :: pySplitAux sep fuel post

/-- Python `s.split(sep)` for a nonempty separator. -/
def pySplitL (sep : List Char) (s : List Char) : List (List Char) :=
  pySplitAux sep (s.length + 1) s

/-- Python `email_type.replace('_', ' ')` (single-character pattern). -/
def underscoresToSpaces (s : String) : String :=
  String.mk (s.data.map (fun c => if c = '_' then ' ' else c))

/-- One step of Python `str.title()`: a cased character is uppercased
when the previous character was not cased, lowercased otherwise. -/
def pyTitleL : List Char → Bool → List Char
  | [], _ => []
  | c :: cs, prevCased =>
    (if c.isAlpha then (if prevCased then c.toLower else c.toUpper) else c)
      :: pyTitleL cs c.isAlpha

/-- Python `s.title()` (cased characters restricted to letters). -/
def pyTitle (s : String) : String := String.mk (pyTitleL s.data false)

/-- Python `s.startswith(p)`. -/
def pyStartsWith (s p : String) : Bool := p.data.isPrefixOf s.data

/-! ## Python values and `json.loads`

`json.loads` is embedded as an executable recursive-descent parser for
the JSON grammar accepted by Python's `json` module in its default
configuration: any top-level value, the `NaN`/`Infinity`/`-Infinity`
extensions, strict strings (unescaped control characters rejected),
`\uXXXX` escapes with surrogate-pair combination.  Numbers are kept as
their lexemes (no claim inspects a numeric value).  Objects keep their
members in parse order and lookups take the last binding, matching the
last-wins behaviour of Python dict construction. -/

inductive Py where
  | pstr : String → Py
  | pnum : String → Py
  | pbool : Bool → Py
  | pnone : Py
  | plist : List Py → Py
  | pdict : List (String × Py) → Py

/-- Python `d.get(k, dflt)` on an association list (last binding wins). -/
def pyGetD {α : Type} (d : List (String × α)) (k : String) (dflt : α) : α :=
  match (d.filter (fun kv => kv.1 == k)).getLast? with
  | some kv => kv.2
  | none => dflt

/-- Python `k in d` / key presence on an association list. -/
def hasKey {α : Type} (d : List (String × α)) (k : String) : Bool :=
  d.any (fun kv => kv.1 == k)

def hexVal (c : Char) : Option Nat :=
  if '0' ≤ c ∧ c ≤ '9' then some (c.toNat - '0'.toNat)
  else if 'a' ≤ c ∧ c ≤ 'f' then some (c.toNat - 'a'.toNat + 10)
  else if 'A' ≤ c ∧ c ≤ 'F' then some (c.toNat - 'A'.toNat + 10)
  else none

def hex4 (a b c d : Char) : Option Nat := do
  let x ← hexVal a
  let y ← hexVal b
  let z ← hexVal c
  let w ← hexVal d
  pure (((x * 16 + y) * 16 + z) * 16 + w)

/-- Single-character JSON escapes. -/
def escChar (c : Char) : Option Char :=
  if c = '"' then some '"'
  else if c = '\\' then some '\\'
  else if c = '/' then some '/'
  else if c = 'b' then some '\x08'
  else if c = 'f' then some '\x0c'
  else if c = 'n' then some '\n'
  else if c = 'r' then some '\r'
  else if c = 't' then some '\t'
  else none

/-- JSON string body after the opening quote: returns the decoded string
and the input remaining after the closing quote.  Unpaired surrogate
escapes, which Python keeps as lone surrogate code units, are mapped
through `Char.ofNat` (hence to NUL) since Lean characters are scalars. -/
def parseJStr : Nat → List Char → List Char → Option (String × List Char)
  | 0, _, _ => none
  | fuel+1, acc, s =>
    match s with
    | [] => none
    | '"' :: rest => some (String.mk acc.reverse, rest)
    | '\\' :: 'u' :: a :: b :: c :: d :: rest =>
      match hex4 a b c d with
      | none => none
      | some n =>
        if 0xD800 ≤ n ∧ n < 0xDC00 then
          match rest with
          | '\\' :: 'u' :: a2 :: b2 :: c2 :: d2 :: rest2 =>
            match hex4 a2 b2 c2 d2 with
            | some m =>
              if 0xDC00 ≤ m ∧ m < 0xE000 then
                parseJStr fuel
                  (Char.ofNat (0x10000 + (n - 0xD800) * 0x400 + (m - 0xDC00)) :: acc) rest2
              else parseJStr fuel (Char.ofNat n :: acc) rest
            | none => parseJStr fuel (Char.ofNat n :: acc) rest
          | _ => parseJStr fuel (Char.ofNat n :: acc) rest
        else parseJStr fuel (Char.ofNat n :: acc) rest
    | '\\' :: e :: rest =>
      match escChar e with
      | some c => parseJStr fuel (c :: acc) rest
      | none => none
    | c :: rest =>
      if c.toNat < 0x20 then none else parseJStr fuel (c :: acc) rest

/-- JSON whitespace skipping (space, tab, LF, CR only). -/
def skipWs : List Char → List Char
  | [] => []
  | c :: cs => if c = ' ' ∨ c = '\t' ∨ c = '\n' ∨ c = '\r' then skipWs cs else c :: cs

def lexDigits (s : List Char) : List Char × List Char :=
  (s.takeWhile Char.isDigit, s.dropWhile Char.isDigit)

def lexFrac (s : List Char) : List Char × List Char :=
  match s with
  | '.' :: rest =>
    match lexDigits rest with
    | ([], _) => ([], s)
    | (ds, r) => ('.' :: ds, r)
  | _ => ([], s)

def lexExp (s : List Char) : List Char × List Char :=
  match s with
  | c :: rest =>
    if c = 'e' ∨ c = 'E' then
      match rest with
      | '+' :: t =>
        (match lexDigits t with
         | ([], _) => ([], s)
         | (ds, r) => (c :: '+' :: ds, r))
      | '-' :: t =>
        (match lexDigits t with
         | ([], _) => ([], s)
         | (ds, r) => (c :: '-' :: ds, r))
      | _ =>
        (match lexDigits rest with
         | ([], _) => ([], s)
         | (ds, r) => (c :: ds, r))
    else ([], s)
  | [] => ([], s)

/-- JSON number lexeme: `-? (0 | [1-9][0-9]*) frac? exp?`. -/
def lexNumber (s : List Char) : Option (List Char × List Char) :=
  let (neg, s1) : List Char × List Char :=
    match s with
    | '-' :: t => (['-'], t)
    | _ => ([], s)
  match s1 with
  | '0' :: rest =>
    let (f, r1) := lexFrac rest
    let (e, r2) := lexExp r1
    some (neg ++ '0' :: (f ++ e), r2)
  | c :: rest =>
    if '1' ≤ c ∧ c ≤ '9' then
      let (ds, r0) := lexDigits rest
      let (f, r1) := lexFrac r0
      let (e, r2) := lexExp r1
      some (neg ++ c :: (ds ++ f ++ e), r2)
    else none
  | [] => none

mutual

def parseVal : Nat → List Char → Option (Py × List Char)
  | 0, _ => none
  | fuel+1, s =>
    match skipWs s with
    | '"' :: rest => (parseJStr (rest.length + 1) [] rest).map (fun p => (.pstr p.1, p.2))
    | '\x7b' :: rest => parseObj fuel (skipWs rest)
    | '[' :: rest => parseArr fuel (skipWs rest)
    | 't' :: 'r' :: 'u' :: 'e' :: rest => some (.pbool true, rest)
    | 'f' :: 'a' :: 'l' :: 's' :: 'e' :: rest => some (.pbool false, rest)
    | 'n' :: 'u' :: 'l' :: 'l' :: rest => some (.pnone, rest)
    | 'N' :: 'a' :: 'N' :: rest => some (.pnum "NaN", rest)
    | 'I' :: 'n' :: 'f' :: 'i' :: 'n' :: 'i' :: 't' :: 'y' :: rest =>
      some (.pnum "Infinity", rest)
    | '-' :: 'I' :: 'n' :: 'f' :: 'i' :: 'n' :: 'i' :: 't' :: 'y' :: rest =>
      some (.pnum "-Infinity", rest)
    | t => (lexNumber t).map (fun p => (.pnum (String.mk p.1), p.2))

def parseObj : Nat → List Char → Option (Py × List Char)
  | 0, _ => none
  | fuel+1, s =>
    match s with
    | '\x7d' :: rest => some (.pdict [], rest)
    | _ => parseMembers fuel s []

def parseMembers : Nat → List Char → List (String × Py) → Option (Py × List Char)
  | 0, _, _ => none
  | fuel+1, s, acc =>
    match s with
    | '"' :: rest =>
      match parseJStr (rest.length + 1) [] rest with
      | none => none
      | some (key, r1) =>
        match skipWs r1 with
        | ':' :: r2 =>
          match parseVal fuel r2 with
          | none => none
          | some (v, r3) =>
            match skipWs r3 with
            | ',' :: r4 => parseMembers fuel (skipWs r4) (acc ++ [(key, v)])
            | '\x7d' :: r5 => some (.pdict (acc ++ [(key, v)]), r5)
            | _ => none
        | _ => none
    | _ => none

def parseArr : Nat → List Char → Option (Py × List Char)
  | 0, _ => none
  | fuel+1, s =>
    match s with
    | ']' :: rest => some (.plist [], rest)
    | _ => parseItems fuel s []

def parseItems : Nat → List Char → List Py → Option (Py × List Char)
  | 0, _, _ => none
  | fuel+1, s, acc =>
    match parseVal fuel s with
    | none => none
    | some (v, r1) =>
      match skipWs r1 with
      | ',' :: r2 => parseItems fuel r2 (acc ++ [v])
      | ']' :: r3 => some (.plist (acc ++ [v]), r3)
      | _ => none

end

/-- Python `json.loads`.  The fuel bound exceeds any possible nesting
depth of the input (each extra level of the mutual recursion consumes at
least one input character per three fuel units), so exhaustion never
fires on inputs the grammar accepts. -/
def jsonLoadsL (s : List Char) : Except Unit Py :=
  match parseVal (4 * s.length + 8) s with
  | some (v, rest) => if skipWs rest = [] then .ok v else .error ()
  | none => .error ()

/-! ## The generate-email response interpretation

Embeds the "Parse AI response" block shared by `main.py` (lines 204-218)
and `FastAPI.py` (lines 213-227).  Both variants first strip a
triple-backtick fence (the `"```json"` branch taking precedence over the
bare `"```"` branch), then call `json.loads`; a `JSONDecodeError` takes
the fallback branch, while a successfully parsed non-object value makes
the subsequent `.get` raise an `AttributeError` that escapes to the
handler's outer `except` clause. -/

def sepJsonData : List Char := "```json".data

def btData : List Char := "```".data

/-- The fence-stripping step applied to `ai_response` before
`json.loads` (note that the stripped text also replaces `ai_response`
itself, so later fallbacks see the stripped text, not the original). -/
def cleanResponseL (s : List Char) : List Char :=
  if pyContainsL sepJsonData s then
    pyStripL ((pySplitL btData ((pySplitL sepJsonData s).getD 1 [])).getD 0 [])
  else if pyContainsL btData s then
    pyStripL ((pySplitL btData s).getD 1 [])
  else s

/-- The `except json.JSONDecodeError` fallback subject:
`f"{request.email_type.replace('_', ' ').title()} - {request.recipient_name}"`. -/
def fallbackSubject (email_type recipient_name : String) : String :=
  pyTitle (underscoresToSpaces email_type) ++ " - " ++ recipient_name

/-- Outcome of the parsing block: either the two values handed to
`EmailResponse(subject=..., body=...)`, or an uncaught `AttributeError`
(`.get` on a non-dict `json.loads` result) that the outer handler turns
into an HTTP 500. -/
inductive Interp where
  | fields (subject body : Py)
  | attrError

/-- `main.py` lines 204-218: on parsed objects a missing `subject` key
defaults to the title-cased email type (without the recipient) and a
missing `body` key to the fence-stripped text; present-but-empty values
pass through unchanged. -/
def interpret_main (ai email_type recipient_name : String) : Interp :=
  let cleaned := cleanResponseL ai.data
  match jsonLoadsL cleaned with
  | .error _ =>
    .fields (.pstr (fallbackSubject email_type recipient_name)) (.pstr (String.mk cleaned))
  | .ok (.pdict d) =>
    .fields (pyGetD d "subject" (.pstr (pyTitle (underscoresToSpaces email_type))))
      (pyGetD d "body" (.pstr (String.mk cleaned)))
  | .ok _ => .attrError

/-- `FastAPI.py` lines 213-227: on parsed objects missing keys default
to the empty string; the fallback branch is identical to `main.py`'s. -/
def interpret_fastapi (ai email_type recipient_name : String) : Interp :=
  let cleaned := cleanResponseL ai.data
  match jsonLoadsL cleaned with
  | .error _ =>
    .fields (.pstr (fallbackSubject email_type recipient_name)) (.pstr (String.mk cleaned))
  | .ok (.pdict d) =>
    .fields (pyGetD d "subject" (.pstr "")) (pyGetD d "body" (.pstr ""))
  | .ok _ => .attrError

/-! ## The generate-email endpoint (`main.py` lines 172-229)

The OpenAI client is a process-global that is `None` when
`OPENAI_API_KEY` is absent or malformed; the handler checks it before
composing any prompt.  The capability is modelled by the outcome the
`chat.completions.create` call would have, and the Bool in the result
records whether that call was reached at all. -/

structure EmailGenerationRequest where
  email_type : String
  recipient_name : String
  context : String
  sender_name : String := "Your Name"
  tone : String := "professional"

/-- Outcome of one `chat.completions.create` invocation. -/
inductive LMOutcome where
  | ok : String → LMOutcome
  | fail : String → LMOutcome

inductive GenOut where
  | ok (subject body : Py) (email_type : String)
  | httpError (code : Nat) (detail : String)

/-- `main.py` `generate_email`; the second component records whether the
language-model capability was invoked.  The `AttributeError` detail
string stands for Python's `str(e)` rendering of the exception. -/
def generate_email_main (client : Option LMOutcome) (req : EmailGenerationRequest) :
    GenOut × Bool :=
  match client with
  | none =>
    (.httpError 503 "OpenAI service not available. Please check OPENAI_API_KEY.", false)
  | some (.fail e) => (.httpError 500 ("Email generation error: " ++ e), true)
  | some (.ok content) =>
    match interpret_main (pyStrip content) req.email_type req.recipient_name with
    | .fields s b => (.ok s b req.email_type, true)
    | .attrError => (.httpError 500 "Email generation error: AttributeError", true)

/-- Modelled from `routes.py` lines 17-23: module import evaluates
`OPENAI_API_KEY = os.getenv("OPENAI_API_KEY")` and raises a `ValueError`
when the variable is unset (and, since `not ""` is true in Python, when
it is set to the empty string), so the application crashes at startup
instead of serving a 503. -/
def routesStartup (key : Option String) : Except String Unit :=
  match key with
  | none =>
    .error "OPENAI_API_KEY environment variable is not set. Please add it to your Render environment variables."
  | some k =>
    if k = "" then
      .error "OPENAI_API_KEY environment variable is not set. Please add it to your Render environment variables."
    else .ok ()

/-! ## The routes.py generation flow and log persistence (claim C3)

`routes.py` lines 28-102: everything from the model call through
`crud_email_logs.create` and the final `return EmailResponse(...)` sits
inside one `try`, whose `except Exception` clause re-raises any failure
as HTTP 500 `"Error generating email: ..."`.  The model call and the
database write are the two fallible steps, each modelled by its
outcome. -/

def routes_generate_email (lm : LMOutcome) (createOutcome : Except String Unit) :
    Except (Nat × String) String :=
  match lm with
  | .fail e => .error (500, "Error generating email: " ++ e)
  | .ok content =>
    let generated := pyStrip content
    match createOutcome with
    | .error e => .error (500, "Error generating email: " ++ e)
    | .ok _ => .ok generated

/-- `app.py` lines 326-351: `generate_email_with_openai` signals its own
failures by returning a string starting with the cross-mark character,
in which case `save_to_database` is skipped; a raising `save_to_database`
is not guarded, so its exception propagates and the assistant message
holding the generated email is never appended. -/
def app_generate_flow (lmResult : String) (saveOutcome : Except String Unit) :
    Except String (Bool × String) :=
  if pyStartsWith lmResult "❌" then .ok (false, lmResult)
  else
    match saveOutcome with
    | .error e => .error e
    | .ok _ => .ok (true, lmResult)

/-! ## Log listing (claim C4)

`app.py` stores rows in a SQLite table with an autoincrement id and a
`CURRENT_TIMESTAMP` default; `get_email_history` runs
`SELECT * FROM email_logs ORDER BY timestamp DESC LIMIT 10`.
`crud.py`'s `get_multi` runs a bare `select(EmailLog)` — no ORDER BY and
no LIMIT — which SQLite answers in rowid (insertion) order.  The table
is modelled as the list of rows in insertion order and ORDER BY as an
insertion sort on the timestamp key. -/

structure LogRow where
  id : Nat
  timestamp : Nat
  generated_email : String
deriving DecidableEq

/-- `app.py` `save_to_database`: INSERT appends a row. -/
def save_to_database (db : List LogRow) (row : LogRow) : List LogRow := db ++ [row]

/-- One insertion step of ORDER BY timestamp DESC. -/
def insertByTsDesc (r : LogRow) : List LogRow → List LogRow
  | [] => [r]
  | x :: xs => if r.timestamp ≤ x.timestamp then x :: insertByTsDesc r xs else r :: x :: xs

def orderByTsDesc (db : List LogRow) : List LogRow := db.foldr insertByTsDesc []

/-- `app.py` `get_email_history`: newest-first, LIMIT 10. -/
def get_email_history (db : List LogRow) : List LogRow := (orderByTsDesc db).take 10

/-- `crud.py` `EmailLogCRUD.get_multi`: bare select, all rows as stored. -/
def get_multi (db : List LogRow) : List LogRow := db

/-! ## The send-email endpoint (`FastAPI.py` lines 240-267)

The FastMail client `fm` is `None` unless all three mail environment
variables are set.  The capability is modelled as the callback the
`await fm.send_message(message)` call amounts to; the second component
of the result is the message actually handed to it (`none` when no send
was attempted). -/

structure EmailSendRequest where
  to_email : String
  subject : String
  body : String
  sender_name : String := "Your Name"

structure MessageSchema where
  subject : String
  recipients : List String
  body : String
  subtype : String
deriving DecidableEq

structure EmailSendResponse where
  success : Bool
  message : String
deriving DecidableEq

/-- The `MessageSchema(...)` construction, including the
`subtype="html" if "<" in request.body else "plain"` choice. -/
def buildMessage (req : EmailSendRequest) : MessageSchema :=
  { subject := req.subject
    recipients := [req.to_email]
    body := req.body
    subtype := if pyContainsL "<".data req.body.data then "html" else "plain" }

def send_email (fm : Option (MessageSchema → Except String Unit))
    (req : EmailSendRequest) : EmailSendResponse × Option MessageSchema :=
  match fm with
  | none =>
    ({ success := false
       message := "Email service not configured. Set MAIL_USERNAME, MAIL_PASSWORD, and MAIL_FROM environment variables." },
     none)
  | some cap =>
    let m := buildMessage req
    match cap m with
    | .ok _ => ({ success := true, message := "Email sent successfully to " ++ req.to_email }, some m)
    | .error e => ({ success := false, message := "Failed to send email: " ++ e }, some m)

/-! ## The chat handler's message composition (claims C2 and C10)

`main.py` lines 130-152 and `FastAPI.py` lines 137-161: a fixed system
turn, then `for msg in chat_request.conversation_history[-K:]` with
`msg.get("role", "user")` / `msg.get("content", "")` (K = 5 in main.py,
K = 10 in FastAPI.py), then the current user message.  History entries
are `Dict[str, str]` values, modelled as association lists. -/

def PyStrDict : Type := List (String × String)

structure ChatTurn where
  role : String
  content : String
deriving DecidableEq

/-- Python `history[-K:]` for positive `K`: the suffix of the last
`min K (length)` elements. -/
def pyLastSlice {α : Type} (K : Nat) (l : List α) : List α := l.drop (l.length - K)

/-- The per-entry normalisation `\x7b"role": msg.get("role", "user"),
"content": msg.get("content", "")\x7d`. -/
def historyTurn (m : PyStrDict) : ChatTurn :=
  { role := pyGetD m "role" "user", content := pyGetD m "content" "" }

def systemPromptMain : String :=
  "You are a professional email assistant AI. You help users:\n1. Write professional emails for various purposes\n2. Provide email writing advice and best practices\n3. Suggest improvements to email tone and content\n4. Answer questions about email etiquette\n5. Generate email templates for different scenarios\n\nAlways be helpful, professional, and provide actionable advice."

def systemPromptFastapi : String :=
  "You are a professional email assistant AI. You help users:\n1. Write professional emails for various purposes\n2. Provide email writing advice and best practices\n3. Suggest improvements to email tone and content\n4. Answer questions about email etiquette\n5. Generate email templates for different scenarios\n\nAlways be helpful, professional, and provide actionable advice.\nIf asked to write an email, ask for specific details like recipient, purpose, and context.\n"

/-- The `messages` list composed by `main.py`'s `chat_with_ai`. -/
def chat_messages_main (history : List PyStrDict) (message : String) : List ChatTurn :=
  { role := "system", content := systemPromptMain }
    :: (pyLastSlice 5 history).map historyTurn ++ [{ role := "user", content := message }]

/-- The `messages` list composed by `FastAPI.py`'s `chat_with_ai`. -/
def chat_messages_fastapi (history : List PyStrDict) (message : String) : List ChatTurn :=
  { role := "system", content := systemPromptFastapi }
    :: (pyLastSlice 10 history).map historyTurn ++ [{ role := "user", content := message }]

/-! ## Helper lemmas -/

theorem data_append (s t : String) : (s ++ t).data = s.data ++ t.data := rfl

theorem pyGetD_of_not_hasKey {α : Type} (d : List (String × α)) (k : String) (dflt : α)
    (h : hasKey d k = false) : pyGetD d k dflt = dflt := by
  have hf : d.filter (fun kv => kv.1 == k) = [] := by
    rw [List.filter_eq_nil_iff]
    intro kv hkv
    have := (List.any_eq_false).mp h kv hkv
    simpa using this
  unfold pyGetD
  rw [hf]
  rfl

/-! ## Claim C2: the conversation window -/

/-- Claim C2: for every history and new message, the chat handlers of
both variants compose the prompt as the fixed system turn, then exactly
the last `min K (length history)` history entries in original order
(K = 5 in main.py, K = 10 in FastAPI.py), then the new user message. -/
theorem chat_window_last_K (history : List PyStrDict) (message : String) :
    (∃ w, chat_messages_main history message
          = { role := "system", content := systemPromptMain }
              :: w.map historyTurn ++ [{ role := "user", content := message }]
        ∧ w.length = min 5 history.length
        ∧ history.take (history.length - 5) ++ w = history)
  ∧ (∃ w, chat_messages_fastapi history message
          = { role := "system", content := systemPromptFastapi }
              :: w.map historyTurn ++ [{ role := "user", content := message }]
        ∧ w.length = min 10 history.length
        ∧ history.take (history.length - 10) ++ w = history) := by
  constructor
  · refine ⟨pyLastSlice 5 history, rfl, ?_, ?_⟩
    · unfold pyLastSlice
      rw [List.length_drop]
      omega
    · exact List.take_append_drop _ _
  · refine ⟨pyLastSlice 10 history, rfl, ?_, ?_⟩
    · unfold pyLastSlice
      rw [List.length_drop]
      omega
    · exact List.take_append_drop _ _

/-! ## Claim C10: defaults for malformed history entries -/

/-- Claim C10: a history entry without a `"role"` key is normalised to
role `"user"`, and one without a `"content"` key to empty content; the
normalisation step is total, so malformed entries cannot make the chat
handler fail before the capability call. -/
theorem historyTurn_defaults (m : PyStrDict) :
    (hasKey m "role" = false → (historyTurn m).role = "user")
  ∧ (hasKey m "content" = false → (historyTurn m).content = "") := by
  constructor
  · intro h
    show pyGetD m "role" "user" = "user"
    exact pyGetD_of_not_hasKey m "role" "user" h
  · intro h
    show pyGetD m "content" "" = ""
    exact pyGetD_of_not_hasKey m "content" "" h

theorem historyTurn_defaults_witness :
    (historyTurn [("content", "hi")]).role = "user"
  ∧ (historyTurn [("role", "assistant")]).content = "" :=
  ⟨(historyTurn_defaults [("content", "hi")]).1 (by decide),
   (historyTurn_defaults [("role", "assistant")]).2 (by decide)⟩

/-! ## Claim C5: send-email never raises -/

/-- Claim C5: with the mail capability unconfigured, `send_email`
answers `success = false` with the explanatory configuration message and
performs no send attempt; with a configured capability whose send fails,
it answers `success = false` with the failure message.  Both outcomes
are ordinary responses of the total handler, not raised exceptions. -/
theorem send_email_failure_modes (req : EmailSendRequest) :
    (send_email none req
      = ({ success := false
           message := "Email service not configured. Set MAIL_USERNAME, MAIL_PASSWORD, and MAIL_FROM environment variables." },
         none))
  ∧ (∀ cap e, cap (buildMessage req) = .error e →
      send_email (some cap) req
        = ({ success := false, message := "Failed to send email: " ++ e },
           some (buildMessage req))) := by
  constructor
  · rfl
  · intro cap e h
    simp only [send_email]
    rw [h]

theorem send_email_failure_modes_witness :
    send_email (some fun _ => .error "smtp down")
        { to_email := "jane@example.com", subject := "Hi", body := "Hello" }
      = ({ success := false, message := "Failed to send email: smtp down" },
         some (buildMessage
           { to_email := "jane@example.com", subject := "Hi", body := "Hello" })) :=
  (send_email_failure_modes
    { to_email := "jane@example.com", subject := "Hi", body := "Hello" }).2
    (fun _ => .error "smtp down") "smtp down" rfl

/-! ## Claim C9: HTML subtype exactly when the body contains `<` -/

theorem findSplit_single_isSome (c : Char) (s : List Char) :
    (findSplit [c] s).isSome = true ↔ c ∈ s := by
  induction s with
  | nil => simp [findSplit]
  | cons x xs ih =>
    by_cases hx : c = x
    · subst hx
      simp [findSplit, List.isPrefixOf]
    · have hbeq : (c == x) = false := beq_eq_false_iff_ne.mpr hx
      simp only [findSplit, List.isPrefixOf, hbeq, Bool.false_and, Bool.and_self,
        if_neg Bool.false_ne_true]
      rw [List.mem_cons]
      cases hfs : findSplit [c] xs with
      | none => simp [hfs] at ih ⊢; tauto
      | some p => simp [hfs] at ih ⊢; tauto

theorem pyContainsL_lt (s : List Char) : pyContainsL "<".data s = true ↔ '<' ∈ s := by
  rw [show "<".data = ['<'] from rfl]
  exact findSplit_single_isSome '<' s

theorem buildMessage_subtype (req : EmailSendRequest) :
    (buildMessage req).subtype
      = if pyContainsL "<".data req.body.data then "html" else "plain" := rfl

/-- Claim C9: when the mail capability is configured, the message handed
to it is exactly the one built from the request, and its subtype is
`"html"` precisely when the body contains the character `<`, `"plain"`
otherwise. -/
theorem send_email_subtype (req : EmailSendRequest)
    (cap : MessageSchema → Except String Unit) :
    (send_email (some cap) req).2 = some (buildMessage req)
  ∧ ((buildMessage req).subtype = "html" ↔ '<' ∈ req.body.data)
  ∧ ((buildMessage req).subtype = "plain" ↔ '<' ∉ req.body.data) := by
  refine ⟨?_, ?_, ?_⟩
  · simp only [send_email]
    cases hc : cap (buildMessage req) <;> simp
  · by_cases h : '<' ∈ req.body.data
    · rw [buildMessage_subtype, if_pos ((pyContainsL_lt req.body.data).mpr h)]
      simp [h]
    · rw [buildMessage_subtype, if_neg (fun hc => h ((pyContainsL_lt req.body.data).mp hc))]
      simp [h]
  · by_cases h : '<' ∈ req.body.data
    · rw [buildMessage_subtype, if_pos ((pyContainsL_lt req.body.data).mpr h)]
      simp [h]
    · rw [buildMessage_subtype, if_neg (fun hc => h ((pyContainsL_lt req.body.data).mp hc))]
      simp [h]

/-! ## Claim C6: unconfigured language-model capability -/

/-- Claim C6 counterexample: in the `routes.py` variant an absent
`OPENAI_API_KEY` does not produce a 503-equivalent signal — importing
the module raises a `ValueError`, so absent configuration crashes the
application at startup, contradicting "absent configuration never causes
a crash". -/
theorem routesStartup_crashes_on_missing_key :
    routesStartup none
      = .error "OPENAI_API_KEY environment variable is not set. Please add it to your Render environment variables." := rfl

/-- Claim C6 (amended): in the `main.py` variant an unconfigured client
makes `generate_email` answer HTTP 503 without invoking the capability;
in the `routes.py` variant an unset (or empty) `OPENAI_API_KEY` instead
raises a `ValueError` at import time, a startup crash.  A configured
`routes.py` key starts up cleanly. -/
theorem generate_email_unconfigured (req : EmailGenerationRequest) :
    generate_email_main none req
      = (.httpError 503 "OpenAI service not available. Please check OPENAI_API_KEY.", false)
  ∧ (∀ k, routesStartup k = .ok () ↔ ∃ s, k = some s ∧ s ≠ "") := by
  refine ⟨rfl, ?_⟩
  intro k
  cases k with
  | none => simp [routesStartup]
  | some s =>
    by_cases hs : s = ""
    · subst hs
      simp [routesStartup]
    · simp [routesStartup, hs]

/-! ## Claim C3: log-persistence failure and the primary response -/

/-- Claim C3 counterexample: in `routes.py`, when generation has
succeeded (model returned `"Hello Jane"`) and the log write fails, the
handler does not return the generated email — the `create` exception is
caught by the same `except Exception` clause and the request fails with
HTTP 500. -/
theorem routes_generate_email_persistence_failure :
    routes_generate_email (.ok "Hello Jane") (.error "database is locked")
      = .error (500, "Error generating email: database is locked") := rfl

/-- Claim C3 (amended): a storage failure after successful generation
fails the whole request: `routes.py` answers HTTP 500 with the storage
error in the detail (reported, not swallowed), losing the generated
email, and in `app.py` the `save_to_database` exception propagates so
the generated text is never delivered; only when the write succeeds is
the generated email returned. -/
theorem persistence_failure_fails_response (content e : String) :
    routes_generate_email (.ok content) (.error e)
      = .error (500, "Error generating email: " ++ e)
  ∧ routes_generate_email (.ok content) (.ok ())
      = .ok (pyStrip content)
  ∧ (pyStartsWith content "❌" = false →
      app_generate_flow content (.error e) = .error e) := by
  refine ⟨rfl, rfl, ?_⟩
  intro h
  unfold app_generate_flow
  rw [h]
  rfl

theorem persistence_failure_fails_response_witness :
    app_generate_flow "Dear Jane, thank you." (.error "disk full") = .error "disk full" :=
  (persistence_failure_fails_response "Dear Jane, thank you." "disk full").2.2 rfl

/-! ## Claim C4: listing recent logs -/

theorem insertByTsDesc_bottom (r : LogRow) (m : List LogRow)
    (h : ∀ x ∈ m, r.timestamp ≤ x.timestamp) : insertByTsDesc r m = m ++ [r] := by
  induction m with
  | nil => rfl
  | cons x xs ih =>
    unfold insertByTsDesc
    rw [if_pos (h x (by simp))]
    rw [ih (fun y hy => h y (by simp [hy]))]
    rfl

theorem orderByTsDesc_strictMono (db : List LogRow)
    (h : db.Pairwise (fun a b => a.timestamp < b.timestamp)) :
    orderByTsDesc db = db.reverse := by
  induction db with
  | nil => rfl
  | cons a l ih =>
    have hal : ∀ x ∈ l, a.timestamp < x.timestamp := (List.pairwise_cons.mp h).1
    have hl : l.Pairwise (fun a b => a.timestamp < b.timestamp) :=
      (List.pairwise_cons.mp h).2
    show insertByTsDesc a (orderByTsDesc l) = (a :: l).reverse
    rw [ih hl, List.reverse_cons]
    exact insertByTsDesc_bottom a l.reverse
      (fun x hx => le_of_lt (hal x (List.mem_reverse.mp hx)))

theorem foldl_save_to_database (rows db : List LogRow) :
    List.foldl save_to_database db rows = db ++ rows := by
  induction rows generalizing db with
  | nil => simp
  | cons r rs ih =>
    show List.foldl save_to_database (db ++ [r]) rs = db ++ r :: rs
    rw [ih (db ++ [r])]
    simp

/-- Claim C4 (amended): creating N records appends them in order; the
`app.py` variant (`get_email_history`) then returns the last
`min 10 N` records newest-first when creation timestamps are strictly
increasing, while the `crud.py` variant (`get_multi`) has no limit
parameter and no ordering clause and returns all N records exactly as
stored, oldest first. -/
theorem listing_logs (rows : List LogRow)
    (h : rows.Pairwise (fun a b => a.timestamp < b.timestamp)) :
    get_email_history (List.foldl save_to_database [] rows) = rows.reverse.take 10
  ∧ (get_email_history (List.foldl save_to_database [] rows)).length
      = min 10 rows.length
  ∧ get_multi (List.foldl save_to_database [] rows) = rows := by
  have hdb : List.foldl save_to_database [] rows = rows := by
    rw [foldl_save_to_database]
    rfl
  refine ⟨?_, ?_, ?_⟩
  · rw [hdb]
    show (orderByTsDesc rows).take 10 = rows.reverse.take 10
    rw [orderByTsDesc_strictMono rows h]
  · rw [hdb]
    show ((orderByTsDesc rows).take 10).length = min 10 rows.length
    rw [orderByTsDesc_strictMono rows h, List.length_take, List.length_reverse]
  · rw [hdb]
    rfl

def demoRow1 : LogRow := { id := 1, timestamp := 100, generated_email := "first email" }

def demoRow2 : LogRow := { id := 2, timestamp := 200, generated_email := "second email" }

/-- Claim C4 counterexample: after creating two records, the `crud.py`
listing returns them oldest first — its first element is the record with
the smaller creation timestamp while the newer record sits behind it —
so the listing is not ordered newest-first as claimed. -/
theorem get_multi_not_newest_first :
    get_multi (save_to_database (save_to_database [] demoRow1) demoRow2)
      = [demoRow1, demoRow2]
  ∧ demoRow1.timestamp < demoRow2.timestamp
  ∧ [demoRow1, demoRow2] ≠ [demoRow2, demoRow1] := by
  refine ⟨rfl, by decide, by decide⟩

theorem listing_logs_witness :
    get_email_history (List.foldl save_to_database [] [demoRow1, demoRow2])
      = [demoRow2, demoRow1] := by
  have h := (listing_logs [demoRow1, demoRow2] (by decide)).1
  rw [h]
  rfl

/-! ## Claims C1 and C8: the fallback policy of the interpretation -/

theorem mk_data (s : String) : String.mk s.data = s := rfl

theorem fallbackSubject_ne_empty (t r : String) : fallbackSubject t r ≠ "" := by
  intro h
  have h2 : (fallbackSubject t r).data = [] := by rw [h]
  unfold fallbackSubject at h2
  rw [data_append, data_append] at h2
  have h3 : " - ".data = [' ', '-', ' '] := rfl
  rw [h3] at h2
  simp at h2

/-- Claim C1 counterexample: the raw text `"\x7b\x7d"` is valid JSON
missing both keys, and the FastAPI.py interpretation returns the empty
subject and the empty body — no fallback fires, contradicting the claim
that subject and body are always non-empty. -/
theorem interpret_empty_object :
    interpret_fastapi "\x7b\x7d" "thank_you" "Jane" = .fields (.pstr "") (.pstr "") := rfl

/-- Claim C1 (amended): the fallback substitution happens only when
`json.loads` fails, in which case the subject is the deterministic
fallback (always non-empty) and the body is the fence-stripped text
(possibly empty); when parsing succeeds with an object, the extracted
values are returned as-is, FastAPI.py defaulting missing keys to the
empty string and main.py defaulting a missing subject to the title-cased
email type (without the recipient) and a missing body to the
fence-stripped text. -/
theorem interpret_fallback_only_on_parse_error (raw t r : String) :
    (jsonLoadsL (cleanResponseL raw.data) = .error () →
      interpret_fastapi raw t r
          = .fields (.pstr (fallbackSubject t r))
              (.pstr (String.mk (cleanResponseL raw.data)))
        ∧ fallbackSubject t r ≠ "")
  ∧ (∀ d, jsonLoadsL (cleanResponseL raw.data) = .ok (.pdict d) →
      interpret_fastapi raw t r
        = .fields (pyGetD d "subject" (.pstr "")) (pyGetD d "body" (.pstr "")))
  ∧ (∀ d, jsonLoadsL (cleanResponseL raw.data) = .ok (.pdict d) →
      interpret_main raw t r
        = .fields (pyGetD d "subject" (.pstr (pyTitle (underscoresToSpaces t))))
            (pyGetD d "body" (.pstr (String.mk (cleanResponseL raw.data))))) := by
  refine ⟨?_, ?_, ?_⟩
  · intro h
    refine ⟨?_, fallbackSubject_ne_empty t r⟩
    simp only [interpret_fastapi]
    rw [h]
  · intro d h
    simp only [interpret_fastapi]
    rw [h]
  · intro d h
    simp only [interpret_main]
    rw [h]

theorem interpret_fallback_only_on_parse_error_witness :
    interpret_fastapi "oops" "thank_you" "Jane"
        = .fields (.pstr (fallbackSubject "thank_you" "Jane"))
            (.pstr (String.mk (cleanResponseL "oops".data)))
      ∧ fallbackSubject "thank_you" "Jane" ≠ "" :=
  (interpret_fallback_only_on_parse_error "oops" "thank_you" "Jane").1 rfl

/-- Claim C8 counterexample: a parsed object whose `subject` value is
the empty string — so the chosen extraction strategy yields an empty
subject — is returned with that empty subject; the deterministic
fallback subject `"Thank You - Jane"` is not substituted. -/
theorem interpret_empty_subject_kept :
    interpret_fastapi "\x7b\"subject\":\"\",\"body\":\"x\"\x7d" "thank_you" "Jane"
        = .fields (.pstr "") (.pstr "x")
  ∧ fallbackSubject "thank_you" "Jane" = "Thank You - Jane"
  ∧ ("" : String) ≠ "Thank You - Jane" :=
  ⟨rfl, by decide, by decide⟩

/-- Claim C8 (amended): the fallback is triggered by a `json.loads`
failure, not by an empty extraction result; it then sets the subject to
the underscore-to-space, title-cased email type concatenated with
`" - "` and the recipient name, and the body to the fence-stripped text
— which equals the full raw text verbatim exactly when the raw text
contains no triple-backtick fence. -/
theorem interpret_fallback_strings (raw t r : String)
    (h : jsonLoadsL (cleanResponseL raw.data) = .error ()) :
    interpret_main raw t r
      = .fields (.pstr (pyTitle (underscoresToSpaces t) ++ " - " ++ r))
          (.pstr (String.mk (cleanResponseL raw.data)))
  ∧ interpret_fastapi raw t r
      = .fields (.pstr (pyTitle (underscoresToSpaces t) ++ " - " ++ r))
          (.pstr (String.mk (cleanResponseL raw.data)))
  ∧ (pyContainsL sepJsonData raw.data = false → pyContainsL btData raw.data = false →
      String.mk (cleanResponseL raw.data) = raw) := by
  refine ⟨?_, ?_, ?_⟩
  · simp only [interpret_main]
    rw [h]
    rfl
  · simp only [interpret_fastapi]
    rw [h]
    rfl
  · intro h1 h2
    unfold cleanResponseL
    rw [h1, h2]
    simp [mk_data]

theorem interpret_fallback_strings_witness :
    interpret_main "```\nhello\n```" "follow_up" "Ada"
        = .fields (.pstr (pyTitle (underscoresToSpaces "follow_up") ++ " - " ++ "Ada"))
            (.pstr (String.mk (cleanResponseL "```\nhello\n```".data)))
  ∧ String.mk (cleanResponseL "no fences here".data) = "no fences here" :=
  ⟨(interpret_fallback_strings "```\nhello\n```" "follow_up" "Ada" rfl).1,
   (interpret_fallback_strings "no fences here" "t" "r" rfl).2.2 rfl rfl⟩

/-! ## Claim C7: fenced JSON responses -/

theorem isPrefixOf_append_self (l m : List Char) : l.isPrefixOf (l ++ m) = true := by
  rw [List.isPrefixOf_iff_prefix]
  exact List.prefix_append l m

theorem findSplit_of_isPrefixOf (sep s : List Char) (h : sep.isPrefixOf s = true) :
    findSplit sep s = some ([], s.drop sep.length) := by
  cases s with
  | nil =>
    unfold findSplit
    rw [if_pos h, List.drop_nil]
  | cons c cs =>
    unfold findSplit
    rw [if_pos h]

theorem findSplit_self_append (sep m : List Char) :
    findSplit sep (sep ++ m) = some ([], m) := by
  rw [findSplit_of_isPrefixOf sep (sep ++ m) (isPrefixOf_append_self sep m), List.drop_left]

theorem findSplit_append_left (c0 : Char) (sep' : List Char) (mid t : List Char)
    (hm : c0 ∉ mid) :
    findSplit (c0 :: sep') (mid ++ t)
      = (findSplit (c0 :: sep') t).map (fun p => (mid ++ p.1, p.2)) := by
  induction mid with
  | nil => simp
  | cons c mid' ih =>
    have hc : c0 ≠ c := fun hcc => hm (hcc ▸ List.mem_cons_self c mid')
    have hpre : (c0 :: sep').isPrefixOf (c :: (mid' ++ t)) = false := by
      show ((c0 == c) && sep'.isPrefixOf (mid' ++ t)) = false
      rw [beq_eq_false_iff_ne.mpr hc]
      rfl
    show findSplit (c0 :: sep') (c :: (mid' ++ t)) = _
    rw [findSplit, hpre]
    simp only [Bool.false_eq_true, if_false]
    rw [ih (fun hmem => hm (List.mem_cons_of_mem c hmem))]
    cases findSplit (c0 :: sep') t <;> rfl

theorem pySplitAux_nomatch (sep s : List Char) (fuel : Nat)
    (h : findSplit sep s = none) : pySplitAux sep fuel s = [s] := by
  cases fuel with
  | zero => rfl
  | succ n =>
    simp only [pySplitAux, h]

theorem pySplitAux_found (sep s : List Char) (fuel : Nat) (pre post : List Char)
    (h : findSplit sep s = some (pre, post)) :
    pySplitAux sep (fuel + 1) s = pre :: pySplitAux sep fuel post := by
  simp only [pySplitAux, h]

theorem sepJsonData_cons : sepJsonData = '`' :: "``json".data := rfl

theorem btData_cons : btData = '`' :: "``".data := rfl

theorem findSplit_sepJson_tail (mid : List Char) (hm : '`' ∉ mid) :
    findSplit sepJsonData (mid ++ btData) = none := by
  rw [sepJsonData_cons, findSplit_append_left '`' "``json".data mid btData hm]
  rw [show findSplit ('`' :: "``json".data) btData = none from rfl]
  rfl

theorem pySplit_fence_outer (mid : List Char) (hm : '`' ∉ mid) :
    pySplitL sepJsonData (sepJsonData ++ (mid ++ btData)) = [[], mid ++ btData] := by
  unfold pySplitL
  rw [pySplitAux_found sepJsonData _ _ [] (mid ++ btData)
    (findSplit_self_append sepJsonData (mid ++ btData))]
  rw [pySplitAux_nomatch sepJsonData (mid ++ btData) _ (findSplit_sepJson_tail mid hm)]

theorem findSplit_bt_at_end (mid : List Char) (hm : '`' ∉ mid) :
    findSplit btData (mid ++ btData) = some (mid, []) := by
  have h := findSplit_append_left '`' "``".data mid btData hm
  rw [← btData_cons] at h
  rw [h]
  rw [show findSplit btData btData = some ([], []) from by
    have h2 := findSplit_self_append btData []
    rwa [List.append_nil] at h2]
  simp

theorem pySplit_fence_inner (mid : List Char) (hm : '`' ∉ mid) :
    pySplitL btData (mid ++ btData) = [mid, []] := by
  unfold pySplitL
  rw [pySplitAux_found btData _ _ mid [] (findSplit_bt_at_end mid hm)]
  rw [pySplitAux_nomatch btData [] _ rfl]

theorem cleanResponseL_json_fence (mid : List Char) (hm : '`' ∉ mid) :
    cleanResponseL (sepJsonData ++ (mid ++ btData)) = pyStripL mid := by
  have h1 : pyContainsL sepJsonData (sepJsonData ++ (mid ++ btData)) = true := by
    unfold pyContainsL
    rw [findSplit_self_append]
    rfl
  unfold cleanResponseL
  rw [h1]
  simp only [if_true]
  rw [pySplit_fence_outer mid hm]
  rw [show ([[], mid ++ btData] : List (List Char)).getD 1 [] = mid ++ btData from rfl]
  rw [pySplit_fence_inner mid hm]
  rfl

/-- Claim C7: for every model response that is a triple-backtick fenced
block tagged `json` whose content (up to surrounding whitespace) is the
JSON object with subject `"A"` and body `"B"`, both interpretation
variants strip the fence, parse the JSON, and return subject `"A"` and
body `"B"`. -/
theorem interpret_json_fence (mid : List Char) (t r : String)
    (hm : '`' ∉ mid)
    (hs : pyStripL mid = "\x7b\"subject\":\"A\",\"body\":\"B\"\x7d".data) :
    interpret_main (String.mk (sepJsonData ++ (mid ++ btData))) t r
      = .fields (.pstr "A") (.pstr "B")
  ∧ interpret_fastapi (String.mk (sepJsonData ++ (mid ++ btData))) t r
      = .fields (.pstr "A") (.pstr "B") := by
  have hc : cleanResponseL (String.mk (sepJsonData ++ (mid ++ btData))).data
      = pyStripL mid := cleanResponseL_json_fence mid hm
  constructor
  · simp only [interpret_main]
    rw [hc, hs]
    rfl
  · simp only [interpret_fastapi]
    rw [hc, hs]
    rfl

theorem interpret_json_fence_witness :
    interpret_fastapi
        (String.mk (sepJsonData ++ ("\n\x7b\"subject\":\"A\",\"body\":\"B\"\x7d\n".data ++ btData)))
        "thank_you" "Jane"
      = .fields (.pstr "A") (.pstr "B") :=
  (interpret_json_fence "\n\x7b\"subject\":\"A\",\"body\":\"B\"\x7d\n".data "thank_you" "Jane"
    (by decide) rfl).2

end EmailAssistant
